import Mathlib

/-!
Verification of the Monopoly game-rules engine
(`src/services/game-engine/src/engine/` and `src/data/` of the repository).

The Python modules are shallowly embedded as executable Lean definitions:
pure functions become Lean functions, the in-place mutation of the
`GameManager` methods becomes explicit state passing on an `EngineState`
aggregate, machine integers become `Int`/`Nat`, and code paths that raise
exceptions in Python return `none`.  Randomness (dice rolls and card draws)
is injected as explicit parameters, mirroring how the engine consumes
`random.randint` results.
-/

namespace Monopoly

/-- Player identifier (UUIDs in the source; abstracted to naturals). -/
abbrev PlayerId := Nat

/-- Result of rolling two dice (`engine/dice.py`, `DiceRoll`). -/
structure DiceRoll where
  die1 : Nat
  die2 : Nat
deriving Repr, DecidableEq

/-- Total of both dice (`DiceRoll.total`). -/
def DiceRoll.total (d : DiceRoll) : Nat := d.die1 + d.die2

/-- Whether the roll is doubles (`DiceRoll.is_doubles`). -/
def DiceRoll.is_doubles (d : DiceRoll) : Bool := d.die1 == d.die2

/-- Runtime state of one player (`db/models.py`, `PlayerModel`). -/
structure Player where
  id : PlayerId
  position : Int
  cash : Int
  in_jail : Bool
  jail_turns : Nat
  get_out_of_jail_cards : Nat
  is_bankrupt : Bool
deriving Repr, DecidableEq

/-- Runtime state of one property (`db/models.py`, `PropertyStateModel`). -/
structure PropertyState where
  property_id : String
  owner_id : Option PlayerId
  houses : Nat
deriving Repr, DecidableEq

/-! ## Movement engine (`engine/movement.py`) -/

def BOARD_SIZE : Int := 40

def GO_POSITION : Int := 0

def JAIL_POSITION : Int := 10

def GO_TO_JAIL_POSITION : Int := 30

def GO_SALARY : Int := 200

/-- Result of moving a player (`movement.MovementResult`). -/
structure MovementResult where
  new_position : Int
  passed_go : Bool
  landed_on_go_to_jail : Bool
  spaces_moved : Int
deriving Repr, DecidableEq

/-- Move a player by a number of spaces (`movement.move_player`).
Python `%` on a positive modulus agrees with `Int.emod`. -/
def move_player (current_position : Int) (spaces : Int) : MovementResult :=
  let new_position := (current_position + spaces) % BOARD_SIZE
  let passed_go := decide (0 < spaces) && decide (new_position < current_position)
  let landed_on_go_to_jail := decide (new_position = GO_TO_JAIL_POSITION)
  { new_position := new_position
    passed_go := passed_go
    landed_on_go_to_jail := landed_on_go_to_jail
    spaces_moved := spaces }

/-- Move a player directly to a position (`movement.move_to_position`). -/
def move_to_position (current_position : Int) (destination : Int) : MovementResult :=
  let passed_go := decide (destination < current_position) && !decide (destination = JAIL_POSITION)
  let spaces_moved :=
    if current_position ≤ destination then destination - current_position
    else (BOARD_SIZE - current_position) + destination
  { new_position := destination
    passed_go := passed_go
    landed_on_go_to_jail := decide (destination = GO_TO_JAIL_POSITION)
    spaces_moved := spaces_moved }

/-- Find the nearest railroad or utility clockwise
(`movement.find_nearest_property_type`); `none` models the `ValueError`
raised on an unknown property type. -/
def find_nearest_property_type (current_position : Int) (property_type : String) :
    Option Int :=
  match property_type with
  | "railroad" =>
      let positions : List Int := [5, 15, 25, 35]
      some ((positions.find? fun pos => decide (current_position < pos)).getD (positions.headD 0))
  | "utility" =>
      let positions : List Int := [12, 28]
      some ((positions.find? fun pos => decide (current_position < pos)).getD (positions.headD 0))
  | _ => none

/-! ## Board data (`data/board.py`) -/

/-- One board space (`board.BoardSpace`). -/
structure BoardSpace where
  position : Int
  name : String
  type : String
  property_id : Option String := none
  amount : Option Int := none
deriving Repr, DecidableEq

/-- The 40 board spaces (`board.BOARD_SPACES`). -/
def BOARD_SPACES : List BoardSpace :=
  [ { position := 0, name := "GO", type := "go" },
    { position := 1, name := "Mediterranean Avenue", type := "property", property_id := some "mediterranean" },
    { position := 2, name := "Community Chest", type := "community_chest" },
    { position := 3, name := "Baltic Avenue", type := "property", property_id := some "baltic" },
    { position := 4, name := "Income Tax", type := "tax", amount := some 200 },
    { position := 5, name := "Reading Railroad", type := "property", property_id := some "reading_rr" },
    { position := 6, name := "Oriental Avenue", type := "property", property_id := some "oriental" },
    { position := 7, name := "Chance", type := "chance" },
    { position := 8, name := "Vermont Avenue", type := "property", property_id := some "vermont" },
    { position := 9, name := "Connecticut Avenue", type := "property", property_id := some "connecticut" },
    { position := 10, name := "Jail / Just Visiting", type := "jail" },
    { position := 11, name := "St. Charles Place", type := "property", property_id := some "st_charles" },
    { position := 12, name := "Electric Company", type := "property", property_id := some "electric_company" },
    { position := 13, name := "States Avenue", type := "property", property_id := some "states" },
    { position := 14, name := "Virginia Avenue", type := "property", property_id := some "virginia" },
    { position := 15, name := "Pennsylvania Railroad", type := "property", property_id := some "pennsylvania_rr" },
    { position := 16, name := "St. James Place", type := "property", property_id := some "st_james" },
    { position := 17, name := "Community Chest", type := "community_chest" },
    { position := 18, name := "Tennessee Avenue", type := "property", property_id := some "tennessee" },
    { position := 19, name := "New York Avenue", type := "property", property_id := some "new_york" },
    { position := 20, name := "Free Parking", type := "free_parking" },
    { position := 21, name := "Kentucky Avenue", type := "property", property_id := some "kentucky" },
    { position := 22, name := "Chance", type := "chance" },
    { position := 23, name := "Indiana Avenue", type := "property", property_id := some "indiana" },
    { position := 24, name := "Illinois Avenue", type := "property", property_id := some "illinois" },
    { position := 25, name := "B&O Railroad", type := "property", property_id := some "bo_rr" },
    { position := 26, name := "Atlantic Avenue", type := "property", property_id := some "atlantic" },
    { position := 27, name := "Ventnor Avenue", type := "property", property_id := some "ventnor" },
    { position := 28, name := "Water Works", type := "property", property_id := some "water_works" },
    { position := 29, name := "Marvin Gardens", type := "property", property_id := some "marvin_gardens" },
    { position := 30, name := "Go To Jail", type := "go_to_jail" },
    { position := 31, name := "Pacific Avenue", type := "property", property_id := some "pacific" },
    { position := 32, name := "North Carolina Avenue", type := "property", property_id := some "north_carolina" },
    { position := 33, name := "Community Chest", type := "community_chest" },
    { position := 34, name := "Pennsylvania Avenue", type := "property", property_id := some "pennsylvania" },
    { position := 35, name := "Short Line Railroad", type := "property", property_id := some "short_line_rr" },
    { position := 36, name := "Chance", type := "chance" },
    { position := 37, name := "Park Place", type := "property", property_id := some "park_place" },
    { position := 38, name := "Luxury Tax", type := "tax", amount := some 100 },
    { position := 39, name := "Boardwalk", type := "property", property_id := some "boardwalk" } ]

/-- Get board space by position (`board.get_space`); Python list indexing at
`position % 40` never fails, so the default is unreachable. -/
def get_space (position : Int) : BoardSpace :=
  (BOARD_SPACES.get? ((position % 40).toNat)).getD { position := 0, name := "GO", type := "go" }

/-- Type of the space at a position (`movement.get_space_type`). -/
def get_space_type (position : Int) : String := (get_space position).type

/-- Name of the space at a position (`movement.get_space_name`). -/
def get_space_name (position : Int) : String := (get_space position).name

/-- Property ID at a position, if any (`movement.get_property_id_at_position`). -/
def get_property_id_at_position (position : Int) : Option String :=
  (get_space position).property_id

/-- Tax amount at a position, if any (`movement.get_tax_amount`). -/
def get_tax_amount (position : Int) : Option Int :=
  (get_space position).amount

/-! ## Static property tables (`data/properties.py`) -/

/-- Static data of one property.  The Python table stores streets, railroads
and utilities as dicts with different keys; here each shape is a constructor.
Street fields: color, price, rent schedule `[base, 1h, 2h, 3h, 4h, hotel]`,
house cost (mortgage values are never read by the engine and are omitted). -/
inductive PropInfo
  | street (color : String) (price : Int) (rent : List Int) (house_cost : Int)
  | railroad (price : Int)
  | utility (price : Int)
deriving Repr, DecidableEq

/-- Get property by ID (`properties.get_property`, over `PROPERTIES`). -/
def get_property (property_id : String) : Option PropInfo :=
  match property_id with
  | "mediterranean" => some (.street "brown" 60 [2, 10, 30, 90, 160, 250] 50)
  | "baltic" => some (.street "brown" 60 [4, 20, 60, 180, 320, 450] 50)
  | "oriental" => some (.street "light_blue" 100 [6, 30, 90, 270, 400, 550] 50)
  | "vermont" => some (.street "light_blue" 100 [6, 30, 90, 270, 400, 550] 50)
  | "connecticut" => some (.street "light_blue" 120 [8, 40, 100, 300, 450, 600] 50)
  | "st_charles" => some (.street "pink" 140 [10, 50, 150, 450, 625, 750] 100)
  | "states" => some (.street "pink" 140 [10, 50, 150, 450, 625, 750] 100)
  | "virginia" => some (.street "pink" 160 [12, 60, 180, 500, 700, 900] 100)
  | "st_james" => some (.street "orange" 180 [14, 70, 200, 550, 750, 950] 100)
  | "tennessee" => some (.street "orange" 180 [14, 70, 200, 550, 750, 950] 100)
  | "new_york" => some (.street "orange" 200 [16, 80, 220, 600, 800, 1000] 100)
  | "kentucky" => some (.street "red" 220 [18, 90, 250, 700, 875, 1050] 150)
  | "indiana" => some (.street "red" 220 [18, 90, 250, 700, 875, 1050] 150)
  | "illinois" => some (.street "red" 240 [20, 100, 300, 750, 925, 1100] 150)
  | "atlantic" => some (.street "yellow" 260 [22, 110, 330, 800, 975, 1150] 150)
  | "ventnor" => some (.street "yellow" 260 [22, 110, 330, 800, 975, 1150] 150)
  | "marvin_gardens" => some (.street "yellow" 280 [24, 120, 360, 850, 1025, 1200] 150)
  | "pacific" => some (.street "green" 300 [26, 130, 390, 900, 1100, 1275] 200)
  | "north_carolina" => some (.street "green" 300 [26, 130, 390, 900, 1100, 1275] 200)
  | "pennsylvania" => some (.street "green" 320 [28, 150, 450, 1000, 1200, 1400] 200)
  | "park_place" => some (.street "dark_blue" 350 [35, 175, 500, 1100, 1300, 1500] 200)
  | "boardwalk" => some (.street "dark_blue" 400 [50, 200, 600, 1400, 1700, 2000] 200)
  | "reading_rr" => some (.railroad 200)
  | "pennsylvania_rr" => some (.railroad 200)
  | "bo_rr" => some (.railroad 200)
  | "short_line_rr" => some (.railroad 200)
  | "electric_company" => some (.utility 150)
  | "water_works" => some (.utility 150)
  | _ => none

/-- Color groups for monopoly checking (`properties.COLOR_GROUPS`, combined
with the `.get(color, [])` default-to-empty lookup used at every call site). -/
def color_group (color : String) : List String :=
  match color with
  | "brown" => ["mediterranean", "baltic"]
  | "light_blue" => ["oriental", "vermont", "connecticut"]
  | "pink" => ["st_charles", "states", "virginia"]
  | "orange" => ["st_james", "tennessee", "new_york"]
  | "red" => ["kentucky", "indiana", "illinois"]
  | "yellow" => ["atlantic", "ventnor", "marvin_gardens"]
  | "green" => ["pacific", "north_carolina", "pennsylvania"]
  | "dark_blue" => ["park_place", "boardwalk"]
  | _ => []

/-- Railroad IDs (`properties.RAILROAD_IDS`). -/
def RAILROAD_IDS : List String := ["reading_rr", "pennsylvania_rr", "bo_rr", "short_line_rr"]

/-- Utility IDs (`properties.UTILITY_IDS`). -/
def UTILITY_IDS : List String := ["electric_company", "water_works"]

/-! ## Property rules (`engine/property_rules.py`) -/

/-- Locate the state record of a property
(the `next((ps for ps in property_states if ps.property_id == pid), None)`
idiom used throughout the engine). -/
def find_state (property_states : List PropertyState) (property_id : String) :
    Option PropertyState :=
  property_states.find? fun ps => ps.property_id == property_id

/-- Check whether a player can buy a property
(`property_rules.can_buy_property`). -/
def can_buy_property (property_id : String) (player : Player)
    (property_states : List PropertyState) : Bool × String :=
  match get_property property_id with
  | none => (false, "Property does not exist")
  | some prop =>
    match find_state property_states property_id with
    | none => (false, "Property state not found")
    | some prop_state =>
      if prop_state.owner_id ≠ none then (false, "Property is already owned")
      else
        let price := match prop with
          | .street _ price _ _ => price
          | .railroad price => price
          | .utility price => price
        if player.cash < price then (false, "Insufficient funds")
        else (true, "OK")

/-- Purchase price of a property (`property_rules.get_property_price`);
`none` models the `ValueError` raised for an unknown ID. -/
def get_property_price (property_id : String) : Option Int :=
  match get_property property_id with
  | none => none
  | some (.street _ price _ _) => some price
  | some (.railroad price) => some price
  | some (.utility price) => some price

/-- Whether the owner holds the full color set, as computed inline in
`property_rules._calculate_street_rent`. -/
def owns_full_set (owner_id : PlayerId) (color : String)
    (property_states : List PropertyState) : Bool :=
  (color_group color).all fun pid =>
    property_states.any fun ps => ps.property_id == pid && ps.owner_id == some owner_id

/-- Rent for a street property (`property_rules._calculate_street_rent`).
The Python `prop["rent"][houses]` indexing is in range for every reachable
state (schedules have six entries and `houses ≤ 5`); `getD` returns 0 out of
range. -/
def calculate_street_rent (color : String) (rent : List Int)
    (prop_state : PropertyState) (property_states : List PropertyState)
    (owner_id : PlayerId) : Int :=
  let full_set := owns_full_set owner_id color property_states
  let houses := prop_state.houses
  if houses = 0 then
    let base_rent := rent.getD 0 0
    if full_set then base_rent * 2 else base_rent
  else
    rent.getD houses 0

/-- Rent for a railroad (`property_rules._calculate_railroad_rent`). -/
def calculate_railroad_rent (property_states : List PropertyState)
    (owner_id : PlayerId) : Int :=
  let rr_count :=
    (property_states.filter fun ps =>
      RAILROAD_IDS.contains ps.property_id && ps.owner_id == some owner_id).length
  if rr_count ≤ 0 then 0 else 25 * 2 ^ (rr_count - 1)

/-- Rent for a utility (`property_rules._calculate_utility_rent`). -/
def calculate_utility_rent (property_states : List PropertyState)
    (owner_id : PlayerId) (dice_total : Option Int) : Int :=
  let d := dice_total.getD 7
  let util_count :=
    (property_states.filter fun ps =>
      UTILITY_IDS.contains ps.property_id && ps.owner_id == some owner_id).length
  if util_count = 1 then 4 * d
  else if util_count = 2 then 10 * d
  else 0

/-- Rent for landing on a property (`property_rules.calculate_rent`). -/
def calculate_rent (property_id : String) (property_states : List PropertyState)
    (dice_total : Option Int := none) : Int :=
  match get_property property_id with
  | none => 0
  | some prop =>
    match find_state property_states property_id with
    | none => 0
    | some prop_state =>
      match prop_state.owner_id with
      | none => 0
      | some owner_id =>
        match prop with
        | .street color _ rent _ =>
            calculate_street_rent color rent prop_state property_states owner_id
        | .railroad _ => calculate_railroad_rent property_states owner_id
        | .utility _ => calculate_utility_rent property_states owner_id dice_total

/-- Owner of a property, if any (`property_rules.get_owner_id`). -/
def get_owner_id (property_id : String) (property_states : List PropertyState) :
    Option PlayerId :=
  match find_state property_states property_id with
  | none => none
  | some prop_state => prop_state.owner_id

/-- Count houses and hotels owned by a player
(`property_rules.count_houses_and_hotels`). -/
def count_houses_and_hotels (player_id : PlayerId)
    (property_states : List PropertyState) : Nat × Nat :=
  property_states.foldl
    (fun acc ps =>
      if ps.owner_id == some player_id then
        if ps.houses = 5 then (acc.1, acc.2 + 1)
        else if 0 < ps.houses then (acc.1 + ps.houses, acc.2)
        else acc
      else acc)
    (0, 0)

/-! ## Building rules (`engine/building_rules.py`) -/

/-- The color-group ownership loop of `building_rules.can_build_house`:
every property of the group must have a state owned by the player. -/
def house_group_owned (player : Player) (property_states : List PropertyState) :
    List String → Bool × String
  | [] => (true, "OK")
  | pid :: rest =>
    match find_state property_states pid with
    | none => (false, "Must own all properties in the color group")
    | some ps =>
      if ps.owner_id ≠ some player.id then
        (false, "Must own all properties in the color group")
      else house_group_owned player property_states rest

/-- The even-building loop of `building_rules.can_build_house`: no other
group member may have fewer houses than the target property. -/
def even_building_check (property_id : String) (current_houses : Nat)
    (property_states : List PropertyState) : List String → Bool × String
  | [] => (true, "OK")
  | pid :: rest =>
    if pid = property_id then
      even_building_check property_id current_houses property_states rest
    else
      match find_state property_states pid with
      | none => even_building_check property_id current_houses property_states rest
      | some ps =>
        if ps.houses < current_houses then
          (false, "Must build evenly across the color group")
        else even_building_check property_id current_houses property_states rest

/-- Check if a player can build a house (`building_rules.can_build_house`). -/
def can_build_house (property_id : String) (player : Player)
    (property_states : List PropertyState) : Bool × String :=
  match get_property property_id with
  | none => (false, "Property does not exist")
  | some (.railroad _) => (false, "Can only build on street properties")
  | some (.utility _) => (false, "Can only build on street properties")
  | some (.street color _ _ house_cost) =>
    match find_state property_states property_id with
    | none => (false, "Property state not found")
    | some prop_state =>
      if prop_state.owner_id ≠ some player.id then
        (false, "You do not own this property")
      else
        let owned := house_group_owned player property_states (color_group color)
        if !owned.1 then owned
        else if 4 ≤ prop_state.houses then
          (false, "Already has 4 houses - build a hotel instead")
        else
          let even := even_building_check property_id prop_state.houses
            property_states (color_group color)
          if !even.1 then even
          else if player.cash < house_cost then (false, "Insufficient funds")
          else (true, "OK")

/-- The color-group loop of `building_rules.can_build_hotel`: every *other*
group member must be owned by the player and hold at least 4 houses
(`ps.houses < 4` is the only rejection on the house count, so a sibling
already carrying a hotel, `houses = 5`, passes). -/
def hotel_group_check (property_id : String) (player : Player)
    (property_states : List PropertyState) : List String → Bool × String
  | [] => (true, "OK")
  | pid :: rest =>
    if pid = property_id then hotel_group_check property_id player property_states rest
    else
      match find_state property_states pid with
      | none => (false, "Must own all properties in the color group")
      | some ps =>
        if ps.owner_id ≠ some player.id then
          (false, "Must own all properties in the color group")
        else if ps.houses < 4 then
          (false, "All properties in the group must have 4 houses first")
        else hotel_group_check property_id player property_states rest

/-- Check if a player can build a hotel (`building_rules.can_build_hotel`). -/
def can_build_hotel (property_id : String) (player : Player)
    (property_states : List PropertyState) : Bool × String :=
  match get_property property_id with
  | none => (false, "Property does not exist")
  | some (.railroad _) => (false, "Can only build on street properties")
  | some (.utility _) => (false, "Can only build on street properties")
  | some (.street color _ _ house_cost) =>
    match find_state property_states property_id with
    | none => (false, "Property state not found")
    | some prop_state =>
      if prop_state.owner_id ≠ some player.id then
        (false, "You do not own this property")
      else if prop_state.houses ≠ 4 then
        (false, "Must have 4 houses before building a hotel")
      else
        let grp := hotel_group_check property_id player property_states (color_group color)
        if !grp.1 then grp
        else if player.cash < house_cost then (false, "Insufficient funds")
        else (true, "OK")

/-- Cost to build a house (`building_rules.get_house_cost`); `none` models
the `ValueError` raised when the property is not a street. -/
def get_house_cost (property_id : String) : Option Int :=
  match get_property property_id with
  | some (.street _ _ _ house_cost) => some house_cost
  | _ => none

/-- All properties where a player can build
(`building_rules.get_buildable_properties`). -/
def get_buildable_properties (player : Player)
    (property_states : List PropertyState) : List (String × String) :=
  property_states.filterMap fun prop_state =>
    if prop_state.owner_id ≠ some player.id then none
    else
      match get_property prop_state.property_id with
      | some (.street _ _ _ _) =>
          if (can_build_house prop_state.property_id player property_states).1 then
            some (prop_state.property_id, "house")
          else if (can_build_hotel prop_state.property_id player property_states).1 then
            some (prop_state.property_id, "hotel")
          else none
      | _ => none

/-! ## Jail rules (`engine/jail_rules.py`) -/

def JAIL_FINE : Int := 50

def MAX_JAIL_TURNS : Nat := 3

/-- Methods to escape from jail (`jail_rules.JailEscapeMethod`). -/
inductive JailEscapeMethod
  | pay_fine
  | use_card
  | roll_doubles
  | forced_pay
deriving Repr, DecidableEq

/-- Result of attempting to escape jail (`jail_rules.JailEscapeResult`). -/
structure JailEscapeResult where
  escaped : Bool
  method : Option JailEscapeMethod
  cost : Int
  message : String
deriving Repr, DecidableEq

/-- Check if a player can pay the jail fine (`jail_rules.can_pay_jail_fine`). -/
def can_pay_jail_fine (player : Player) : Bool × String :=
  if !player.in_jail then (false, "Player is not in jail")
  else if player.cash < JAIL_FINE then (false, "Insufficient funds")
  else (true, "OK")

/-- Check if a player can use a Get Out of Jail Free card
(`jail_rules.can_use_jail_card`). -/
def can_use_jail_card (player : Player) : Bool × String :=
  if !player.in_jail then (false, "Player is not in jail")
  else if player.get_out_of_jail_cards = 0 then (false, "No Get Out of Jail Free cards")
  else (true, "OK")

/-- Check if a player can attempt to roll doubles
(`jail_rules.can_roll_for_doubles`). -/
def can_roll_for_doubles (player : Player) : Bool × String :=
  if !player.in_jail then (false, "Player is not in jail")
  else (true, "OK")

/-- Attempt to roll doubles to escape jail (`jail_rules.roll_for_doubles`). -/
def roll_for_doubles (player : Player) (dice_roll : DiceRoll) : JailEscapeResult :=
  if dice_roll.is_doubles then
    { escaped := true
      method := some .roll_doubles
      cost := 0
      message := "Rolled doubles and escaped jail" }
  else if MAX_JAIL_TURNS - 1 ≤ player.jail_turns then
    { escaped := true
      method := some .forced_pay
      cost := JAIL_FINE
      message := "Third turn in jail - must pay and leave" }
  else
    { escaped := false
      method := none
      cost := 0
      message := "Did not roll doubles. Still in jail." }

/-! ## Bankruptcy (`engine/bankruptcy.py`) -/

/-- Result of a bankruptcy check (`bankruptcy.BankruptcyResult`). -/
structure BankruptcyResult where
  is_bankrupt : Bool
  debt_amount : Int
  creditor_id : Option PlayerId
  message : String
deriving Repr, DecidableEq

/-- Check if a player is bankrupt after incurring a debt
(`bankruptcy.check_bankruptcy`): insolvent iff `cash < debt`. -/
def check_bankruptcy (player : Player) (debt_amount : Int)
    (creditor_id : Option PlayerId := none) : BankruptcyResult :=
  if debt_amount ≤ player.cash then
    { is_bankrupt := false
      debt_amount := debt_amount
      creditor_id := creditor_id
      message := "Player can pay" }
  else
    { is_bankrupt := true
      debt_amount := debt_amount
      creditor_id := creditor_id
      message := "Player is bankrupt" }

/-- IDs of the properties a bankrupt player gives back to the bank
(`bankruptcy.handle_bankruptcy_to_bank`). -/
def handle_bankruptcy_to_bank (player : Player)
    (property_states : List PropertyState) : List String :=
  (property_states.filter fun ps => ps.owner_id == some player.id).map
    fun ps => ps.property_id

/-- IDs of the properties a bankrupt player transfers to the creditor
(`bankruptcy.handle_bankruptcy_to_player`); the creditor is not read. -/
def handle_bankruptcy_to_player (bankrupt_player : Player)
    (_creditor_player : Player) (property_states : List PropertyState) :
    List String :=
  (property_states.filter fun ps => ps.owner_id == some bankrupt_player.id).map
    fun ps => ps.property_id

/-- Count players who are not bankrupt (`bankruptcy.count_active_players`). -/
def count_active_players (players : List Player) : Nat :=
  (players.filter fun p => !p.is_bankrupt).length

/-- The winner if only one player remains (`bankruptcy.get_winner`). -/
def get_winner (players : List Player) : Option Player :=
  let active_players := players.filter fun p => !p.is_bankrupt
  if active_players.length = 1 then active_players.head? else none

/-- Whether the game is over (`bankruptcy.is_game_over`). -/
def is_game_over (players : List Player) : Bool :=
  count_active_players players ≤ 1

/-! ## Card data (`data/chance_cards.py`, `data/community_chest.py`) -/

/-- Action archetype of a card; the Python dicts carry an `action` string
plus the fields that archetype needs. -/
inductive CardAction
  | move_to (destination : Int)
  | move_to_nearest (property_type : String)
  | move_relative (spaces : Int)
  | collect (amount : Int)
  | pay (amount : Int)
  | get_out_of_jail_card
  | go_to_jail
  | pay_per_building (house_cost : Int) (hotel_cost : Int)
  | pay_each_player (amount : Int)
  | collect_from_each_player (amount : Int)
deriving Repr, DecidableEq

/-- One Chance or Community Chest card. -/
structure Card where
  id : Nat
  text : String
  action : CardAction
deriving Repr, DecidableEq

/-- The 16 Chance cards (`chance_cards.CHANCE_CARDS`). -/
def CHANCE_CARDS : List Card :=
  [ { id := 1, text := "Advance to Boardwalk", action := .move_to 39 },
    { id := 2, text := "Advance to Go (Collect $200)", action := .move_to 0 },
    { id := 3, text := "Advance to Illinois Avenue. If you pass Go, collect $200", action := .move_to 24 },
    { id := 4, text := "Advance to St. Charles Place. If you pass Go, collect $200", action := .move_to 11 },
    { id := 5, text := "Advance to the nearest Railroad, pay twice the rental", action := .move_to_nearest "railroad" },
    { id := 6, text := "Advance to the nearest Railroad, pay twice the rental", action := .move_to_nearest "railroad" },
    { id := 7, text := "Advance token to nearest Utility, pay 10 times dice", action := .move_to_nearest "utility" },
    { id := 8, text := "Bank pays you dividend of $50", action := .collect 50 },
    { id := 9, text := "Get Out of Jail Free", action := .get_out_of_jail_card },
    { id := 10, text := "Go Back 3 Spaces", action := .move_relative (-3) },
    { id := 11, text := "Go to Jail. Go directly to Jail", action := .go_to_jail },
    { id := 12, text := "Make general repairs on all your property", action := .pay_per_building 25 100 },
    { id := 13, text := "Speeding fine $15", action := .pay 15 },
    { id := 14, text := "Take a trip to Reading Railroad. If you pass Go, collect $200", action := .move_to 5 },
    { id := 15, text := "You have been elected Chairman of the Board. Pay each player $50", action := .pay_each_player 50 },
    { id := 16, text := "Your building loan matures. Collect $150", action := .collect 150 } ]

/-- The 16 Community Chest cards (`community_chest.COMMUNITY_CHEST_CARDS`). -/
def COMMUNITY_CHEST_CARDS : List Card :=
  [ { id := 1, text := "Advance to Go (Collect $200)", action := .move_to 0 },
    { id := 2, text := "Bank error in your favor. Collect $200", action := .collect 200 },
    { id := 3, text := "Doctor fee. Pay $50", action := .pay 50 },
    { id := 4, text := "From sale of stock you get $50", action := .collect 50 },
    { id := 5, text := "Get Out of Jail Free", action := .get_out_of_jail_card },
    { id := 6, text := "Go to Jail. Go directly to jail", action := .go_to_jail },
    { id := 7, text := "Holiday fund matures. Receive $100", action := .collect 100 },
    { id := 8, text := "Income tax refund. Collect $20", action := .collect 20 },
    { id := 9, text := "It is your birthday. Collect $10 from every player", action := .collect_from_each_player 10 },
    { id := 10, text := "Life insurance matures. Collect $100", action := .collect 100 },
    { id := 11, text := "Pay hospital fees of $100", action := .pay 100 },
    { id := 12, text := "Pay school fees of $50", action := .pay 50 },
    { id := 13, text := "Receive $25 consultancy fee", action := .collect 25 },
    { id := 14, text := "You are assessed for street repair", action := .pay_per_building 40 115 },
    { id := 15, text := "You have won second prize in a beauty contest. Collect $10", action := .collect 10 },
    { id := 16, text := "You inherit $100", action := .collect 100 } ]

/-- Get a Chance card by ID (`chance_cards.get_chance_card`). -/
def get_chance_card (card_id : Nat) : Option Card :=
  CHANCE_CARDS.find? fun card => card.id == card_id

/-- Get a Community Chest card by ID (`community_chest.get_community_chest_card`). -/
def get_community_chest_card (card_id : Nat) : Option Card :=
  COMMUNITY_CHEST_CARDS.find? fun card => card.id == card_id

/-! ## Card executor (`engine/card_executor.py`) -/

/-- Type of card deck (`card_executor.CardType`). -/
inductive CardType
  | chance
  | community_chest
deriving Repr, DecidableEq

/-- Result of executing a card (`card_executor.CardEffect`).  The Python
payment dicts become association lists in player order. -/
structure CardEffect where
  card_id : Nat
  card_type : CardType
  card_text : String
  cash_change : Int := 0
  new_position : Option Int := none
  passed_go : Bool := false
  go_to_jail : Bool := false
  get_jail_card : Bool := false
  payments_to_players : List (PlayerId × Int) := []
  collections_from_players : List (PlayerId × Int) := []
  special_rent_multiplier : Option Int := none
deriving Repr, DecidableEq

/-- Execute a card effect (`card_executor._execute_card`); `none` models the
`ValueError` raised by `find_nearest_property_type` on an unknown type. -/
def execute_card (card : Card) (card_type : CardType) (player : Player)
    (all_players : List Player) (property_states : List PropertyState) :
    Option CardEffect :=
  let effect : CardEffect :=
    { card_id := card.id, card_type := card_type, card_text := card.text }
  match card.action with
  | .move_to destination =>
      let result := move_to_position player.position destination
      let effect := { effect with
        new_position := some result.new_position
        passed_go := result.passed_go }
      some (if effect.passed_go then { effect with cash_change := effect.cash_change + 200 }
            else effect)
  | .move_to_nearest property_type =>
      match find_nearest_property_type player.position property_type with
      | none => none
      | some destination =>
        let result := move_to_position player.position destination
        let effect := { effect with
          new_position := some result.new_position
          passed_go := result.passed_go }
        let effect :=
          if effect.passed_go then { effect with cash_change := effect.cash_change + 200 }
          else effect
        if property_type = "railroad" then
          some { effect with special_rent_multiplier := some 2 }
        else if property_type = "utility" then
          some { effect with special_rent_multiplier := some 10 }
        else some effect
  | .move_relative spaces =>
      let result := move_player player.position spaces
      let effect := { effect with new_position := some result.new_position }
      some (if result.landed_on_go_to_jail then { effect with go_to_jail := true }
            else effect)
  | .collect amount => some { effect with cash_change := amount }
  | .pay amount => some { effect with cash_change := -amount }
  | .get_out_of_jail_card => some { effect with get_jail_card := true }
  | .go_to_jail =>
      some { effect with go_to_jail := true, new_position := some JAIL_POSITION }
  | .pay_per_building house_cost hotel_cost =>
      let counts := count_houses_and_hotels player.id property_states
      let total_cost := (counts.1 : Int) * house_cost + (counts.2 : Int) * hotel_cost
      some { effect with cash_change := -total_cost }
  | .pay_each_player amount =>
      some (all_players.foldl
        (fun eff other =>
          if other.id ≠ player.id && !other.is_bankrupt then
            { eff with
              payments_to_players := eff.payments_to_players ++ [(other.id, amount)]
              cash_change := eff.cash_change - amount }
          else eff)
        effect)
  | .collect_from_each_player amount =>
      some (all_players.foldl
        (fun eff other =>
          if other.id ≠ player.id && !other.is_bankrupt then
            { eff with
              collections_from_players := eff.collections_from_players ++ [(other.id, amount)]
              cash_change := eff.cash_change + amount }
          else eff)
        effect)

/-- Execute a Chance card (`card_executor.execute_chance_card`); `none`
models the `ValueError` raised for an invalid card ID. -/
def execute_chance_card (card_id : Nat) (player : Player)
    (all_players : List Player) (property_states : List PropertyState) :
    Option CardEffect :=
  match get_chance_card card_id with
  | none => none
  | some card => execute_card card .chance player all_players property_states

/-- Execute a Community Chest card (`card_executor.execute_community_chest_card`). -/
def execute_community_chest_card (card_id : Nat) (player : Player)
    (all_players : List Player) (property_states : List PropertyState) :
    Option CardEffect :=
  match get_community_chest_card card_id with
  | none => none
  | some card => execute_card card .community_chest player all_players property_states

/-! ## Game manager (`engine/game_manager.py`)

The `GameManager` instance state (`self.game`, `self.players`,
`self.property_states`, `self._consecutive_doubles`) becomes the
`EngineState` aggregate, and every `_handle_*` method becomes a function
from the state (plus the `player` argument the method receives, plus the
injected dice roll / card draw) to `Option (ActionResult × EngineState)`,
`none` marking the paths where the Python code would raise. -/

/-- Phases within a turn (`game_manager.TurnPhase`). -/
inductive TurnPhase
  | pre_roll
  | awaiting_roll
  | awaiting_buy_decision
  | awaiting_jail_decision
  | post_roll
deriving Repr, DecidableEq

/-- Types of actions a player can take (`game_manager.ActionType`). -/
inductive ActionType
  | roll_dice
  | buy_property
  | pass_property
  | build_house
  | build_hotel
  | pay_jail_fine
  | use_jail_card
  | roll_for_doubles
  | end_turn
deriving Repr, DecidableEq

/-- A valid action (`game_manager.ValidAction`). -/
structure ValidAction where
  action_type : ActionType
  property_id : Option String := none
  cost : Option Int := none
  description : String := ""
deriving Repr, DecidableEq

/-- Result of executing an action (`game_manager.ActionResult`). -/
structure ActionResult where
  success : Bool
  message : String
  dice_roll : Option DiceRoll := none
  movement : Option MovementResult := none
  card_effect : Option CardEffect := none
  jail_result : Option JailEscapeResult := none
  bankruptcy : Option BankruptcyResult := none
  rent_paid : Int := 0
  rent_to_player : Option PlayerId := none
  next_phase : Option TurnPhase := none
  turn_complete : Bool := false
  game_over : Bool := false
  winner_id : Option PlayerId := none
deriving Repr, DecidableEq

/-- The mutable state a `GameManager` works on. -/
structure EngineState where
  players : List Player
  property_states : List PropertyState
  turn_phase : TurnPhase
  current_player_index : Nat := 0
  turn_number : Nat := 0
  consecutive_doubles : Nat := 0
deriving Repr, DecidableEq

/-- Write back a mutated player object: in Python the `player` argument
aliases the entry of `self.players`, so every field assignment is visible in
the list immediately. -/
def set_player (st : EngineState) (player : Player) : EngineState :=
  { st with players := st.players.map fun q => if q.id == player.id then player else q }

/-- Mutate the first property state with a given ID, the
`next((ps for ps in self.property_states if ps.property_id == pid), None)`
followed by field assignment idiom. -/
def update_first_state (property_id : String) (f : PropertyState → PropertyState) :
    List PropertyState → List PropertyState
  | [] => []
  | ps :: rest =>
    if ps.property_id == property_id then f ps :: rest
    else ps :: update_first_state property_id f rest

/-- The current player (`GameManager.current_player`); `none` models the
`ValueError` when no active players remain. -/
def current_player (st : EngineState) : Option Player :=
  let active_players := st.players.filter fun p => !p.is_bankrupt
  active_players[st.current_player_index % active_players.length]?

/-- Valid actions for the current player (`GameManager.get_valid_actions`). -/
def get_valid_actions (st : EngineState) : Option (List ValidAction) :=
  match current_player st with
  | none => none
  | some player =>
    match st.turn_phase with
    | .pre_roll | .awaiting_roll =>
      if player.in_jail then
        some
          ((if (can_pay_jail_fine player).1 then
              [{ action_type := .pay_jail_fine, cost := some JAIL_FINE,
                 description := "Pay to get out of jail" }] else [])
           ++ (if (can_use_jail_card player).1 then
              [{ action_type := .use_jail_card,
                 description := "Use Get Out of Jail Free card" }] else [])
           ++ (if (can_roll_for_doubles player).1 then
              [{ action_type := .roll_for_doubles,
                 description := "Try to roll doubles to escape" }] else []))
      else
        some [{ action_type := .roll_dice, description := "Roll the dice" }]
    | .awaiting_jail_decision =>
      some
        ((if (can_pay_jail_fine player).1 then
            [{ action_type := .pay_jail_fine, cost := some JAIL_FINE,
               description := "Pay to get out of jail" }] else [])
         ++ (if (can_use_jail_card player).1 then
            [{ action_type := .use_jail_card,
               description := "Use Get Out of Jail Free card" }] else [])
         ++ (if (can_roll_for_doubles player).1 then
            [{ action_type := .roll_for_doubles,
               description := "Try to roll doubles to escape" }] else []))
    | .awaiting_buy_decision =>
      match get_property_id_at_position player.position with
      | some property_id =>
        if (can_buy_property property_id player st.property_states).1 then
          match get_property_price property_id with
          | none => none
          | some price =>
            some
              [{ action_type := .buy_property, property_id := some property_id,
                 cost := some price, description := "Buy the property" },
               { action_type := .pass_property, property_id := some property_id,
                 description := "Pass on buying the property" }]
        else
          some [{ action_type := .end_turn, description := "Continue (no action available)" }]
      | none =>
        some [{ action_type := .end_turn, description := "Continue" }]
    | .post_roll =>
      let buildable := get_buildable_properties player st.property_states
      match buildable.mapM (fun pr =>
          (get_house_cost pr.1).map fun cost =>
            ({ action_type := if pr.2 = "house" then ActionType.build_house else ActionType.build_hotel,
               property_id := some pr.1, cost := some cost,
               description := "Build on the property" } : ValidAction)) with
      | none => none
      | some build_actions =>
        some (build_actions ++ [{ action_type := .end_turn, description := "End turn" }])

/-- Player bankruptcy (`GameManager._handle_bankruptcy`): zero the cash, set
the flag, and release the properties to the bank or transfer them to the
creditor; `none` models the `StopIteration` raised when the creditor ID
matches no player. -/
def handle_bankruptcy (st : EngineState) (player : Player) (debt : Int)
    (creditor_id : Option PlayerId) (dice : Option DiceRoll)
    (movement : Option MovementResult) : Option (ActionResult × EngineState) :=
  let player := { player with is_bankrupt := true, cash := 0 }
  let st := set_player st player
  let next_st : Option EngineState :=
    match creditor_id with
    | none =>
      let released := handle_bankruptcy_to_bank player st.property_states
      some { st with property_states := st.property_states.map fun ps =>
          if released.contains ps.property_id then
            { ps with owner_id := none, houses := 0 }
          else ps }
    | some cid =>
      match st.players.find? (fun p => p.id == cid) with
      | none => none
      | some creditor =>
        let transferred := handle_bankruptcy_to_player player creditor st.property_states
        some { st with property_states := st.property_states.map fun ps =>
            if transferred.contains ps.property_id then
              { ps with owner_id := some cid }
            else ps }
  match next_st with
  | none => none
  | some st =>
    let game_over := is_game_over st.players
    let winner := if game_over then get_winner st.players else none
    some
      ({ success := true
         message := "Player is bankrupt"
         dice_roll := dice
         movement := movement
         bankruptcy := some (check_bankruptcy player debt creditor_id)
         turn_complete := true
         game_over := game_over
         winner_id := winner.map (fun w => w.id) }, st)

/-- Landing on a property space (`GameManager._handle_land_on_property`).
The `cash_change` parameter is accepted and ignored, as in the source. -/
def handle_land_on_property (st : EngineState) (player : Player) (dice : DiceRoll)
    (movement : MovementResult) (_cash_change : Int) :
    Option (ActionResult × EngineState) :=
  match get_property_id_at_position player.position with
  | none =>
    some ({ success := true, message := "Rolled", dice_roll := some dice,
            movement := some movement, next_phase := some .post_roll }, st)
  | some property_id =>
    match get_property property_id with
    | none => none
    | some _prop =>
      match get_owner_id property_id st.property_states with
      | none =>
        some ({ success := true, message := "Landed on unowned property",
                dice_roll := some dice, movement := some movement,
                next_phase := some .awaiting_buy_decision }, st)
      | some owner_id =>
        if owner_id = player.id then
          some ({ success := true, message := "Landed on your own property",
                  dice_roll := some dice, movement := some movement,
                  next_phase := some .post_roll }, st)
        else
          let rent := calculate_rent property_id st.property_states (some (dice.total : Int))
          let bankruptcy := check_bankruptcy player rent (some owner_id)
          if bankruptcy.is_bankrupt then
            handle_bankruptcy st player rent (some owner_id) (some dice) (some movement)
          else
            let player := { player with cash := player.cash - rent }
            let st := set_player st player
            let st := { st with players := st.players.map fun q =>
                if q.id == owner_id then { q with cash := q.cash + rent } else q }
            some ({ success := true, message := "Paid rent", dice_roll := some dice,
                    movement := some movement, rent_paid := rent,
                    rent_to_player := some owner_id, next_phase := some .post_roll }, st)

/-- Landing on Chance or Community Chest
(`GameManager._handle_land_on_card`), with the randomly drawn card ID
injected as a parameter. -/
def handle_land_on_card (st : EngineState) (player : Player) (dice : DiceRoll)
    (movement : MovementResult) (card_type : CardType) (card_id : Nat) :
    Option (ActionResult × EngineState) :=
  let effect? :=
    match card_type with
    | .chance => execute_chance_card card_id player st.players st.property_states
    | .community_chest =>
        execute_community_chest_card card_id player st.players st.property_states
  match effect? with
  | none => none
  | some effect =>
    if effect.go_to_jail then
      let player := { player with position := JAIL_POSITION, in_jail := true, jail_turns := 0 }
      some ({ success := true, message := "Go to Jail", dice_roll := some dice,
              movement := some movement, card_effect := some effect,
              next_phase := some .post_roll, turn_complete := true },
            set_player st player)
    else
      let player :=
        match effect.new_position with
        | some np => { player with position := np }
        | none => player
      let player :=
        if effect.passed_go then { player with cash := player.cash + GO_SALARY } else player
      let player :=
        if effect.get_jail_card then
          { player with get_out_of_jail_cards := player.get_out_of_jail_cards + 1 }
        else player
      if effect.cash_change < 0 &&
          (check_bankruptcy player (-effect.cash_change)).is_bankrupt then
        handle_bankruptcy (set_player st player) player (-effect.cash_change) none
          (some dice) (some movement)
      else
        let player := { player with cash := player.cash + effect.cash_change }
        let st := set_player st player
        let st := effect.payments_to_players.foldl
          (fun s pr =>
            { s with players := s.players.map fun q =>
                if q.id == pr.1 then { q with cash := q.cash + pr.2 } else q })
          st
        let st := effect.collections_from_players.foldl
          (fun s pr =>
            { s with players := s.players.map fun q =>
                if q.id == pr.1 && pr.2 ≤ q.cash then { q with cash := q.cash - pr.2 } else q })
          st
        some ({ success := true, message := "Drew card", dice_roll := some dice,
                movement := some movement, card_effect := some effect,
                next_phase := some .post_roll }, st)

/-- Landing on a tax space (`GameManager._handle_land_on_tax`). -/
def handle_land_on_tax (st : EngineState) (player : Player) (dice : DiceRoll)
    (movement : MovementResult) : Option (ActionResult × EngineState) :=
  let tax_amount := (get_tax_amount player.position).getD 0
  let bankruptcy := check_bankruptcy player tax_amount
  if bankruptcy.is_bankrupt then
    handle_bankruptcy st player tax_amount none (some dice) (some movement)
  else
    let player := { player with cash := player.cash - tax_amount }
    some ({ success := true, message := "Paid tax", dice_roll := some dice,
            movement := some movement, next_phase := some .post_roll },
          set_player st player)

/-- Landing dispatch on the space type (`GameManager._handle_landing`). -/
def handle_landing (st : EngineState) (player : Player) (dice : DiceRoll)
    (movement : MovementResult) (cash_change : Int) (card_id : Nat) :
    Option (ActionResult × EngineState) :=
  match get_space_type player.position with
  | "property" => handle_land_on_property st player dice movement cash_change
  | "railroad" => handle_land_on_property st player dice movement cash_change
  | "utility" => handle_land_on_property st player dice movement cash_change
  | "chance" => handle_land_on_card st player dice movement .chance card_id
  | "community_chest" => handle_land_on_card st player dice movement .community_chest card_id
  | "tax" => handle_land_on_tax st player dice movement
  | "go" =>
    some ({ success := true, message := "Landed on a safe space", dice_roll := some dice,
            movement := some movement, next_phase := some .post_roll }, st)
  | "jail" =>
    some ({ success := true, message := "Landed on a safe space", dice_roll := some dice,
            movement := some movement, next_phase := some .post_roll }, st)
  | "free_parking" =>
    some ({ success := true, message := "Landed on a safe space", dice_roll := some dice,
            movement := some movement, next_phase := some .post_roll }, st)
  | _ =>
    some ({ success := true, message := "Landed", dice_roll := some dice,
            movement := some movement, next_phase := some .post_roll }, st)

/-- Rolling dice and moving (`GameManager._handle_roll_dice`), with the dice
roll and any card draw injected. -/
def handle_roll_dice (st : EngineState) (player : Player) (dice : DiceRoll)
    (card_id : Nat) : Option (ActionResult × EngineState) :=
  let consecutive := if dice.is_doubles then st.consecutive_doubles + 1 else 0
  let st := { st with consecutive_doubles := consecutive }
  if 3 ≤ consecutive then
    let player := { player with position := JAIL_POSITION, in_jail := true, jail_turns := 0 }
    some ({ success := true, message := "Three doubles in a row! Go to jail!",
            dice_roll := some dice, next_phase := some .post_roll,
            turn_complete := true },
          set_player { st with consecutive_doubles := 0 } player)
  else
    let movement := move_player player.position (dice.total : Int)
    let player := { player with position := movement.new_position }
    let step :=
      if movement.passed_go then
        ({ player with cash := player.cash + GO_SALARY }, GO_SALARY)
      else (player, 0)
    let player := step.1
    let cash_change := step.2
    if movement.landed_on_go_to_jail then
      let player := { player with position := JAIL_POSITION, in_jail := true, jail_turns := 0 }
      some ({ success := true, message := "Landed on Go To Jail!",
              dice_roll := some dice, movement := some movement,
              next_phase := some .post_roll, turn_complete := true },
            set_player st player)
    else
      handle_landing (set_player st player) player dice movement cash_change card_id

/-- Rolling for doubles to escape jail (`GameManager._handle_roll_for_doubles`). -/
def handle_roll_for_doubles (st : EngineState) (player : Player) (dice : DiceRoll)
    (card_id : Nat) : Option (ActionResult × EngineState) :=
  let result := roll_for_doubles player dice
  if result.escaped then
    let player := { player with in_jail := false, jail_turns := 0 }
    let afford_check :=
      result.method = some JailEscapeMethod.forced_pay ∧ player.cash < JAIL_FINE
    if afford_check then
      handle_bankruptcy (set_player st player) player JAIL_FINE none (some dice) none
    else
      let player :=
        if result.method = some JailEscapeMethod.forced_pay then
          { player with cash := player.cash - JAIL_FINE }
        else player
      let movement := move_player player.position (dice.total : Int)
      let player := { player with position := movement.new_position }
      let player :=
        if movement.passed_go then { player with cash := player.cash + GO_SALARY }
        else player
      handle_landing (set_player st player) player dice movement 0 card_id
  else
    let player := { player with jail_turns := player.jail_turns + 1 }
    some ({ success := true, message := result.message, dice_roll := some dice,
            jail_result := some result, next_phase := some .post_roll,
            turn_complete := true },
          set_player st player)

/-- Buying a property (`GameManager._handle_buy_property`). -/
def handle_buy_property (st : EngineState) (player : Player)
    (property_id : Option String) : Option (ActionResult × EngineState) :=
  match property_id with
  | none => some ({ success := false, message := "No property specified" }, st)
  | some pid =>
    let check := can_buy_property pid player st.property_states
    if !check.1 then some ({ success := false, message := check.2 }, st)
    else
      match get_property_price pid with
      | none => none
      | some price =>
        let player := { player with cash := player.cash - price }
        let st := set_player st player
        let new_states :=
          update_first_state pid (fun ps => { ps with owner_id := some player.id })
            st.property_states
        let st := { st with property_states := new_states }
        some ({ success := true, message := "Bought the property",
                next_phase := some .post_roll }, st)

/-- Building a house (`GameManager._handle_build_house`). -/
def handle_build_house (st : EngineState) (player : Player)
    (property_id : Option String) : Option (ActionResult × EngineState) :=
  match property_id with
  | none => some ({ success := false, message := "No property specified" }, st)
  | some pid =>
    let check := can_build_house pid player st.property_states
    if !check.1 then some ({ success := false, message := check.2 }, st)
    else
      match get_house_cost pid with
      | none => none
      | some cost =>
        let player := { player with cash := player.cash - cost }
        let st := set_player st player
        let new_states :=
          update_first_state pid (fun ps => { ps with houses := ps.houses + 1 })
            st.property_states
        let st := { st with property_states := new_states }
        some ({ success := true, message := "Built house",
                next_phase := some .post_roll }, st)

/-- Building a hotel (`GameManager._handle_build_hotel`). -/
def handle_build_hotel (st : EngineState) (player : Player)
    (property_id : Option String) : Option (ActionResult × EngineState) :=
  match property_id with
  | none => some ({ success := false, message := "No property specified" }, st)
  | some pid =>
    let check := can_build_hotel pid player st.property_states
    if !check.1 then some ({ success := false, message := check.2 }, st)
    else
      match get_house_cost pid with
      | none => none
      | some cost =>
        let player := { player with cash := player.cash - cost }
        let st := set_player st player
        let new_states :=
          update_first_state pid (fun ps => { ps with houses := 5 })
            st.property_states
        let st := { st with property_states := new_states }
        some ({ success := true, message := "Built hotel",
                next_phase := some .post_roll }, st)

/-! ## Helper lemmas -/

/-- After writing back a player object, looking it up by its ID returns the
written object, provided some entry with that ID existed. -/
theorem find?_map_update (l : List Player) (p : Player)
    (h : (l.find? fun q => q.id == p.id).isSome = true) :
    (l.map fun q => if q.id == p.id then p else q).find? (fun q => q.id == p.id) = some p := by
  induction l with
  | nil => simp [List.find?] at h
  | cons a rest ih =>
    by_cases ha : a.id = p.id
    · have hpa : ((fun q : Player => q.id == p.id) p) = true := by simp
      rw [List.map_cons, if_pos (by simp [ha])]
      exact List.find?_cons_of_pos _ hpa
    · have hfa : ((fun q : Player => q.id == p.id) a) = false := by simp [ha]
      rw [List.find?_cons_of_neg _ (by simp [ha])] at h
      rw [List.map_cons, if_neg (by simp [ha]), List.find?_cons_of_neg _ (by simp [ha])]
      exact ih h

/-- The set lookup the player write-back uses retains existence. -/
theorem set_player_find (st : EngineState) (p : Player)
    (h : (st.players.find? fun q => q.id == p.id).isSome = true) :
    (set_player st p).players.find? (fun q => q.id == p.id) = some p :=
  find?_map_update st.players p h

/-- `owns_full_set` holds exactly when every property of the color group has
a state entry owned by the owner. -/
theorem owns_full_set_iff (owner_id : PlayerId) (color : String)
    (states : List PropertyState) :
    owns_full_set owner_id color states = true ↔
    ∀ q ∈ color_group color, ∃ e ∈ states,
      e.property_id = q ∧ e.owner_id = some owner_id := by
  simp only [owns_full_set, List.all_eq_true, List.any_eq_true, Bool.and_eq_true, beq_iff_eq]

/-! ## Claim theorems -/

/-- Counterexample to C2 as stated: a full-loop move of 40 spaces from the
go-to-jail space reports `passed_go = false`, not `true` — the pass-GO test
requires the wrapped position to be strictly below the origin. -/
theorem move_full_loop_no_go_counterexample :
    ¬ ((move_player 30 40).passed_go = true) := by decide

/-- C2 (amended): for every position `p` in 0..39 and every positive `k`,
`move_player p (40 * k)` returns position `p` with `passed_go = false`
(a full loop does not credit GO) and flags go-to-jail exactly when
`p = 30`; and no move of zero or negative spaces ever reports passing GO. -/
theorem move_full_loop (p k : Int) (hp0 : 0 ≤ p) (hp : p < 40) (_hk : 0 < k) :
    (move_player p (40 * k)).new_position = p ∧
    (move_player p (40 * k)).passed_go = false ∧
    ((move_player p (40 * k)).landed_on_go_to_jail = true ↔ p = 30) ∧
    (∀ q s : Int, s ≤ 0 → (move_player q s).passed_go = false) := by
  have hmod : (p + 40 * k) % 40 = p := by
    rw [Int.add_mul_emod_self_left, Int.emod_eq_of_lt hp0 hp]
  refine ⟨?_, ?_, ?_, ?_⟩
  · simp [move_player, BOARD_SIZE, hmod]
  · simp [move_player, BOARD_SIZE, hmod]
  · simp [move_player, BOARD_SIZE, GO_TO_JAIL_POSITION, hmod]
  · intro q s hs
    have : ¬ (0 < s) := by omega
    simp [move_player, this]

/-- Witness for `move_full_loop` at `p = 30`, `k = 1`. -/
theorem move_full_loop_witness :
    (0 : Int) ≤ 30 ∧ (30 : Int) < 40 ∧ (0 : Int) < 1 ∧
    ((move_player 30 (40 * 1)).new_position = 30 ∧
     (move_player 30 (40 * 1)).passed_go = false ∧
     ((move_player 30 (40 * 1)).landed_on_go_to_jail = true ↔ (30 : Int) = 30) ∧
     (∀ q s : Int, s ≤ 0 → (move_player q s).passed_go = false)) :=
  ⟨by decide, by decide, by decide,
   move_full_loop 30 1 (by decide) (by decide) (by decide)⟩

/-- C6: rent for an owned street with 0 houses is the doubled base rent when
the owner holds the whole color group and the plain base rent otherwise;
with `h` houses in 1..5 it is the schedule entry at index `h`. -/
theorem street_rent_spec (pid color : String) (price : Int) (rent : List Int)
    (house_cost : Int) (states : List PropertyState) (d : Option Int)
    (ps : PropertyState) (o : PlayerId)
    (hprop : get_property pid = some (.street color price rent house_cost))
    (hfind : find_state states pid = some ps)
    (howner : ps.owner_id = some o) :
    (ps.houses = 0 →
      ((∀ q ∈ color_group color, ∃ e ∈ states,
          e.property_id = q ∧ e.owner_id = some o) →
        calculate_rent pid states d = rent.getD 0 0 * 2) ∧
      ((¬ ∀ q ∈ color_group color, ∃ e ∈ states,
          e.property_id = q ∧ e.owner_id = some o) →
        calculate_rent pid states d = rent.getD 0 0)) ∧
    (∀ h : Nat, 1 ≤ h → h ≤ 5 → ps.houses = h →
      calculate_rent pid states d = rent.getD h 0) := by
  constructor
  · intro h0
    constructor
    · intro hall
      have hfull : owns_full_set o color states = true :=
        (owns_full_set_iff o color states).mpr hall
      simp [calculate_rent, hprop, hfind, howner, calculate_street_rent, h0, hfull]
    · intro hnall
      have hfull : owns_full_set o color states = false := by
        cases hof : owns_full_set o color states
        · rfl
        · exact absurd ((owns_full_set_iff o color states).mp hof) hnall
      simp [calculate_rent, hprop, hfind, howner, calculate_street_rent, h0, hfull]
  · intro h h1 _h5 hhouses
    have hne : ¬ ps.houses = 0 := by omega
    simp [calculate_rent, hprop, hfind, howner, calculate_street_rent, hhouses, hne]
    intro h0
    exact absurd h0 (by omega)

/-- Witness for `street_rent_spec`: the full brown set with 0 houses on
Mediterranean Avenue doubles the base rent 2 to 4 (spec scenario B). -/
theorem street_rent_spec_witness :
    get_property "mediterranean" =
      some (.street "brown" 60 [2, 10, 30, 90, 160, 250] 50) ∧
    find_state
      [⟨"mediterranean", some 1, 0⟩, ⟨"baltic", some 1, 0⟩] "mediterranean" =
      some ⟨"mediterranean", some 1, 0⟩ ∧
    calculate_rent "mediterranean"
      [⟨"mediterranean", some 1, 0⟩, ⟨"baltic", some 1, 0⟩] (some 7) = 2 * 2 := by
  refine ⟨by decide, by decide, ?_⟩
  have h := street_rent_spec "mediterranean" "brown" 60 [2, 10, 30, 90, 160, 250] 50
    [⟨"mediterranean", some 1, 0⟩, ⟨"baltic", some 1, 0⟩] (some 7)
    ⟨"mediterranean", some 1, 0⟩ 1 (by decide) (by decide) (by decide)
  have h2 := (h.1 rfl).1 (by decide)
  simpa using h2

/-- C7: an owned railroad rents 25·2^(n−1) for `n ≥ 1` railroads held by its
owner and 0 when unowned; an owned utility rents 4× the dice total with
exactly one utility held and 10× with both, the total defaulting to 7 when
none is supplied. -/
theorem railroad_utility_rent_spec (states : List PropertyState) (d : Option Int) :
    (∀ pid price ps o,
      get_property pid = some (.railroad price) →
      find_state states pid = some ps → ps.owner_id = some o →
      (1 ≤ (states.filter fun e =>
          RAILROAD_IDS.contains e.property_id && e.owner_id == some o).length →
        calculate_rent pid states d =
          25 * 2 ^ ((states.filter fun e =>
            RAILROAD_IDS.contains e.property_id && e.owner_id == some o).length - 1))) ∧
    (∀ pid price ps,
      get_property pid = some (.railroad price) →
      find_state states pid = some ps → ps.owner_id = none →
      calculate_rent pid states d = 0) ∧
    (∀ pid price ps o,
      get_property pid = some (.utility price) →
      find_state states pid = some ps → ps.owner_id = some o →
      ((states.filter fun e =>
          UTILITY_IDS.contains e.property_id && e.owner_id == some o).length = 1 →
        calculate_rent pid states d = 4 * d.getD 7) ∧
      ((states.filter fun e =>
          UTILITY_IDS.contains e.property_id && e.owner_id == some o).length = 2 →
        calculate_rent pid states d = 10 * d.getD 7)) := by
  refine ⟨?_, ?_, ?_⟩
  · intro pid price ps o hprop hfind howner hcount
    have hne : ¬ ((states.filter fun e =>
        RAILROAD_IDS.contains e.property_id && e.owner_id == some o).length ≤ 0) := by
      omega
    simp only [calculate_rent, hprop, hfind, howner, calculate_railroad_rent]
    rw [if_neg hne]
  · intro pid price ps hprop hfind howner
    simp [calculate_rent, hprop, hfind, howner]
  · intro pid price ps o hprop hfind howner
    constructor
    · intro hcount
      simp only [calculate_rent, hprop, hfind, howner, calculate_utility_rent]
      rw [if_pos hcount]
    · intro hcount
      simp only [calculate_rent, hprop, hfind, howner, calculate_utility_rent]
      rw [if_neg (by omega), if_pos hcount]

/-- Witness for `railroad_utility_rent_spec`: two railroads held rent
25·2 = 50; one utility held rents 4·7 = 28 under the default dice total. -/
theorem railroad_utility_rent_spec_witness :
    calculate_rent "reading_rr"
      [⟨"reading_rr", some 0, 0⟩, ⟨"bo_rr", some 0, 0⟩,
       ⟨"electric_company", some 0, 0⟩] none = 50 ∧
    calculate_rent "electric_company"
      [⟨"reading_rr", some 0, 0⟩, ⟨"bo_rr", some 0, 0⟩,
       ⟨"electric_company", some 0, 0⟩] none = 28 := by
  constructor
  · have h := (railroad_utility_rent_spec
      [⟨"reading_rr", some 0, 0⟩, ⟨"bo_rr", some 0, 0⟩,
       ⟨"electric_company", some 0, 0⟩] none).1
      "reading_rr" 200 ⟨"reading_rr", some 0, 0⟩ 0 (by decide) (by decide) rfl
      (by decide)
    simpa using h
  · have h := ((railroad_utility_rent_spec
      [⟨"reading_rr", some 0, 0⟩, ⟨"bo_rr", some 0, 0⟩,
       ⟨"electric_company", some 0, 0⟩] none).2.2
      "electric_company" 150 ⟨"electric_company", some 0, 0⟩ 0 (by decide) (by decide)
      rfl).1 (by decide)
    simpa using h

/-- The hotel color-group loop succeeds exactly when every *other* member of
the group has a state owned by the player with at least 4 houses. -/
theorem hotel_group_check_spec (property_id : String) (player : Player)
    (states : List PropertyState) (l : List String) :
    (hotel_group_check property_id player states l).1 = true ↔
    ∀ q ∈ l, q ≠ property_id →
      ∃ e, find_state states q = some e ∧ e.owner_id = some player.id ∧
        4 ≤ e.houses := by
  induction l with
  | nil => simp [hotel_group_check]
  | cons a rest ih =>
    by_cases ha : a = property_id
    · subst ha
      simp [hotel_group_check, ih]
    · rw [List.forall_mem_cons]
      cases hfa : find_state states a with
      | none =>
        simp only [hotel_group_check, if_neg ha, hfa]
        constructor
        · intro hfalse; exact Bool.noConfusion hfalse
        · intro hall
          obtain ⟨e, he, _⟩ := hall.1 ha
          exact Option.noConfusion he
      | some e =>
        by_cases howner : e.owner_id = some player.id
        · by_cases hh : e.houses < 4
          · simp only [hotel_group_check, if_neg ha, hfa]
            rw [if_neg (not_not_intro howner), if_pos hh]
            constructor
            · intro hfalse; exact Bool.noConfusion hfalse
            · intro hall
              obtain ⟨e2, he2, _, hge⟩ := hall.1 ha
              cases he2
              omega
          · simp only [hotel_group_check, if_neg ha, hfa]
            rw [if_neg (not_not_intro howner), if_neg hh, ih]
            constructor
            · intro hrest
              exact ⟨fun _ => ⟨e, rfl, howner, by omega⟩, hrest⟩
            · intro hall
              exact hall.2
        · simp only [hotel_group_check, if_neg ha, hfa]
          rw [if_pos howner]
          constructor
          · intro hfalse; exact Bool.noConfusion hfalse
          · intro hall
            obtain ⟨e2, he2, ho2, _⟩ := hall.1 ha
            cases he2
            exact absurd ho2 howner

/-- Counterexample to C8 as stated: with Mediterranean Avenue at 4 houses
and its brown-group sibling Baltic Avenue already carrying a hotel
(`houses = 5`, not "exactly 4 houses"), `can_build_hotel` still allows the
hotel — the source only rejects siblings with `houses < 4`. -/
theorem can_build_hotel_counterexample :
    (can_build_hotel "mediterranean"
      { id := 0, position := 1, cash := 1000, in_jail := false, jail_turns := 0,
        get_out_of_jail_cards := 0, is_bankrupt := false }
      [⟨"mediterranean", some 0, 4⟩, ⟨"baltic", some 0, 5⟩]).1 = true ∧
    ¬ (∀ q ∈ color_group "brown", q ≠ "mediterranean" →
        ∃ e, find_state [⟨"mediterranean", some 0, 4⟩, ⟨"baltic", some 0, 5⟩] q =
            some e ∧ e.houses = 4) := by
  constructor
  · decide
  · intro hall
    obtain ⟨e, he, h4⟩ := hall "baltic" (by decide) (by decide)
    have : e = ⟨"baltic", some 0, 5⟩ := by
      have hb : find_state [⟨"mediterranean", some 0, 4⟩, ⟨"baltic", some 0, 5⟩]
          "baltic" = some ⟨"baltic", some 0, 5⟩ := by decide
      rw [hb] at he
      exact (Option.some_inj.mp he).symm
    rw [this] at h4
    exact absurd h4 (by decide)

/-- C8 (amended): `can_build_hotel` allows the hotel iff the property is a
street, its state exists and is owned by the player, the target has exactly
4 houses, every *other* color-group member has a state owned by the player
with **at least** 4 houses (4 or already a hotel), and the player's cash
covers the house cost. -/
theorem can_build_hotel_iff (pid : String) (player : Player)
    (states : List PropertyState) :
    (can_build_hotel pid player states).1 = true ↔
    ∃ color price rent house_cost,
      get_property pid = some (.street color price rent house_cost) ∧
      ∃ ps, find_state states pid = some ps ∧
        ps.owner_id = some player.id ∧
        ps.houses = 4 ∧
        (∀ q ∈ color_group color, q ≠ pid →
          ∃ e, find_state states q = some e ∧ e.owner_id = some player.id ∧
            4 ≤ e.houses) ∧
        house_cost ≤ player.cash := by
  cases hp : get_property pid with
  | none => simp [can_build_hotel, hp]
  | some prop =>
    cases prop with
    | railroad price => simp [can_build_hotel, hp]
    | utility price => simp [can_build_hotel, hp]
    | street color price rent house_cost =>
      cases hf : find_state states pid with
      | none => simp [can_build_hotel, hp, hf]
      | some ps =>
        constructor
        · intro htrue
          simp only [can_build_hotel, hp, hf] at htrue
          by_cases h1 : ps.owner_id = some player.id
          · rw [if_neg (not_not_intro h1)] at htrue
            by_cases h2 : ps.houses = 4
            · rw [if_neg (not_not_intro h2)] at htrue
              cases hg : (hotel_group_check pid player states (color_group color)).1 with
              | false =>
                rw [show ((!(hotel_group_check pid player states
                    (color_group color)).1) = true) from by rw [hg]; rfl] at htrue
                simp only [if_true] at htrue
                rw [hg] at htrue
                exact Bool.noConfusion htrue
              | true =>
                rw [if_neg (by rw [hg]; exact Bool.noConfusion)] at htrue
                by_cases h4 : player.cash < house_cost
                · rw [if_pos h4] at htrue
                  exact Bool.noConfusion htrue
                · exact ⟨color, price, rent, house_cost, rfl, ps, rfl, h1, h2,
                    (hotel_group_check_spec pid player states (color_group color)).mp hg,
                    by omega⟩
            · rw [if_pos h2] at htrue
              exact Bool.noConfusion htrue
          · rw [if_pos h1] at htrue
            exact Bool.noConfusion htrue
        · rintro ⟨c2, p2, r2, hc2, hpe, ps2, hfe, howner, hh4, hgrp, hcash⟩
          cases hpe
          cases hfe
          have hg : (hotel_group_check pid player states (color_group color)).1 = true :=
            (hotel_group_check_spec pid player states (color_group color)).mpr hgrp
          simp only [can_build_hotel, hp, hf]
          rw [if_neg (not_not_intro howner), if_neg (not_not_intro hh4)]
          rw [if_neg (by rw [hg]; exact Bool.noConfusion)]
          rw [if_neg (not_lt.mpr hcash)]

/-- Unfolding of `handle_bankruptcy` for a debt owed to the bank: it always
succeeds and zeroes the player, and the result carries the movement and the
re-checked bankruptcy record. -/
theorem handle_bankruptcy_bank_spec (st : EngineState) (player : Player)
    (debt : Int) (dice : Option DiceRoll) (movement : Option MovementResult)
    (hin : (st.players.find? fun q => q.id == player.id).isSome = true) :
    ∃ res st2, handle_bankruptcy st player debt none dice movement = some (res, st2) ∧
      res.movement = movement ∧
      res.bankruptcy =
        some (check_bankruptcy { player with is_bankrupt := true, cash := 0 } debt none) ∧
      (st2.players.find? fun q => q.id == player.id) =
        some { player with is_bankrupt := true, cash := 0 } := by
  refine ⟨_, _, rfl, rfl, rfl, ?_⟩
  exact set_player_find st { player with is_bankrupt := true, cash := 0 } hin

/-- C3: when an insolvent player goes bankrupt, their cash is zeroed and the
bankrupt flag is set; every property they owned ends up back at the bank
(owner cleared, houses reset) when the creditor is the bank, and transferred
to the creditor with its houses untouched when the creditor is a player. -/
theorem bankruptcy_disposition (st : EngineState) (player : Player) (debt : Int)
    (creditor_id : Option PlayerId) (dice : Option DiceRoll)
    (movement : Option MovementResult) (res : ActionResult) (st2 : EngineState)
    (hrun : handle_bankruptcy st player debt creditor_id dice movement = some (res, st2))
    (hin : (st.players.find? fun q => q.id == player.id).isSome = true)
    (_hdebt : player.cash < debt) :
    (st2.players.find? fun q => q.id == player.id) =
      some { player with is_bankrupt := true, cash := 0 } ∧
    (∀ ps ∈ st.property_states, ps.owner_id = some player.id →
      (creditor_id = none →
        ({ ps with owner_id := none, houses := 0 } : PropertyState) ∈
          st2.property_states) ∧
      (∀ cid, creditor_id = some cid →
        ({ ps with owner_id := some cid } : PropertyState) ∈ st2.property_states)) := by
  cases creditor_id with
  | none =>
    simp only [handle_bankruptcy] at hrun
    cases hrun
    constructor
    · exact set_player_find st { player with is_bankrupt := true, cash := 0 } hin
    · intro ps hps howned
      refine ⟨fun _ => ?_, fun cid hcid => Option.noConfusion hcid⟩
      have hmem : ps.property_id ∈ handle_bankruptcy_to_bank
          { player with is_bankrupt := true, cash := 0 }
          (set_player st { player with is_bankrupt := true, cash := 0 }).property_states := by
        simp only [handle_bankruptcy_to_bank, set_player]
        exact List.mem_map_of_mem _
          (List.mem_filter.mpr ⟨hps, by simp [howned]⟩)
      have hcont : (handle_bankruptcy_to_bank
          { player with is_bankrupt := true, cash := 0 }
          (set_player st { player with is_bankrupt := true, cash := 0 }).property_states).contains
            ps.property_id = true :=
        List.elem_eq_true_of_mem hmem
      refine List.mem_map.mpr ⟨ps, hps, ?_⟩
      rw [if_pos hcont]
  | some cid =>
    simp only [handle_bankruptcy] at hrun
    cases hc : (set_player st { player with is_bankrupt := true, cash := 0 }).players.find?
        (fun p => p.id == cid) with
    | none => rw [hc] at hrun; exact Option.noConfusion hrun
    | some creditor =>
      rw [hc] at hrun
      cases hrun
      constructor
      · exact set_player_find st { player with is_bankrupt := true, cash := 0 } hin
      · intro ps hps howned
        refine ⟨fun hnone => Option.noConfusion hnone, fun cid2 hcid2 => ?_⟩
        cases hcid2
        have hmem : ps.property_id ∈ handle_bankruptcy_to_player
            { player with is_bankrupt := true, cash := 0 } creditor
            (set_player st { player with is_bankrupt := true, cash := 0 }).property_states := by
          simp only [handle_bankruptcy_to_player, set_player]
          exact List.mem_map_of_mem _
            (List.mem_filter.mpr ⟨hps, by simp [howned]⟩)
        have hcont : (handle_bankruptcy_to_player
            { player with is_bankrupt := true, cash := 0 } creditor
            (set_player st { player with is_bankrupt := true, cash := 0 }).property_states).contains
              ps.property_id = true :=
          List.elem_eq_true_of_mem hmem
        refine List.mem_map.mpr ⟨ps, hps, ?_⟩
        rw [if_pos hcont]

/-- Witness for `bankruptcy_disposition`: a player with $30 owing $100 to
player 1 goes bankrupt and Boardwalk transfers to player 1 intact. -/
theorem bankruptcy_disposition_witness :
    ∃ res st2,
      handle_bankruptcy
        { players :=
            [⟨0, 39, 30, false, 0, 0, false⟩, ⟨1, 0, 800, false, 0, 0, false⟩],
          property_states := [⟨"boardwalk", some 0, 3⟩],
          turn_phase := .post_roll }
        ⟨0, 39, 30, false, 0, 0, false⟩ 100 (some 1) none none = some (res, st2) ∧
      ((st2.players.find? fun q => q.id == (0 : Nat)) =
        some ⟨0, 39, 0, false, 0, 0, true⟩ ∧
      (⟨"boardwalk", some 1, 3⟩ : PropertyState) ∈ st2.property_states) := by
  refine ⟨_, _, rfl, ?_⟩
  have h := bankruptcy_disposition
    { players := [⟨0, 39, 30, false, 0, 0, false⟩, ⟨1, 0, 800, false, 0, 0, false⟩],
      property_states := [⟨"boardwalk", some 0, 3⟩],
      turn_phase := .post_roll }
    ⟨0, 39, 30, false, 0, 0, false⟩ 100 (some 1) none none _ _ rfl (by decide) (by decide)
  refine ⟨h.1, ?_⟩
  exact (h.2 ⟨"boardwalk", some 0, 3⟩ (by decide) rfl).2 1 rfl

/-- C4: a third consecutive doubles roll immediately jails the player —
position set to the jail cell, `in_jail`, `jail_turns = 0`, doubles counter
reset — ends the turn, and performs no movement by the roll total. -/
theorem three_doubles_to_jail (st : EngineState) (player : Player)
    (dice : DiceRoll) (card_id : Nat)
    (hfind : (st.players.find? fun q => q.id == player.id).isSome = true)
    (_hjail : player.in_jail = false)
    (hcd : st.consecutive_doubles = 2)
    (hdd : dice.die1 = dice.die2) :
    ∃ res st2, handle_roll_dice st player dice card_id = some (res, st2) ∧
      res.success = true ∧ res.turn_complete = true ∧ res.movement = none ∧
      (st2.players.find? fun q => q.id == player.id) =
        some { player with position := JAIL_POSITION, in_jail := true, jail_turns := 0 } ∧
      st2.consecutive_doubles = 0 := by
  have hdoubles : dice.is_doubles = true := by
    simp [DiceRoll.is_doubles, hdd]
  refine ⟨{ success := true, message := "Three doubles in a row! Go to jail!",
            dice_roll := some dice, next_phase := some .post_roll, turn_complete := true },
          set_player { st with consecutive_doubles := 0 }
            { player with position := JAIL_POSITION, in_jail := true, jail_turns := 0 },
          ?_, rfl, rfl, rfl, ?_, ?_⟩
  · simp only [handle_roll_dice, hdoubles, if_true, hcd]
    rfl
  · exact set_player_find { st with consecutive_doubles := 0 }
      { player with position := JAIL_POSITION, in_jail := true, jail_turns := 0 } hfind
  · rfl

/-- Witness for `three_doubles_to_jail`: a player at position 15 rolling a
third consecutive (5,5) is jailed without moving. -/
theorem three_doubles_to_jail_witness :
    ∃ res st2,
      handle_roll_dice
        { players := [⟨0, 15, 500, false, 0, 0, false⟩],
          property_states := [], turn_phase := .pre_roll, consecutive_doubles := 2 }
        ⟨0, 15, 500, false, 0, 0, false⟩ ⟨5, 5⟩ 1 = some (res, st2) ∧
      res.success = true ∧ res.turn_complete = true ∧ res.movement = none ∧
      (st2.players.find? fun q => q.id == (0 : Nat)) =
        some { (⟨0, 15, 500, false, 0, 0, false⟩ : Player) with
          position := JAIL_POSITION, in_jail := true, jail_turns := 0 } ∧
      st2.consecutive_doubles = 0 :=
  three_doubles_to_jail
    { players := [⟨0, 15, 500, false, 0, 0, false⟩],
      property_states := [], turn_phase := .pre_roll, consecutive_doubles := 2 }
    ⟨0, 15, 500, false, 0, 0, false⟩ ⟨5, 5⟩ 1 (by decide) rfl rfl rfl

/-- C5: a jailed player with `jail_turns ≥ 2` rolling non-doubles
auto-escapes with method `forced_pay` at cost $50; if their cash is below
$50 the roll action triggers bankruptcy to the bank with no movement, and
otherwise the $50 is deducted before the movement (shown for the roll
(4,6) from the jail cell: final position 20 and cash reduced by exactly
50). -/
theorem forced_pay_escape (st : EngineState) (player : Player) (dice : DiceRoll)
    (card_id : Nat)
    (hfind : (st.players.find? fun q => q.id == player.id).isSome = true)
    (_hjail : player.in_jail = true)
    (hturns : 2 ≤ player.jail_turns)
    (hnd : ¬ dice.die1 = dice.die2) :
    (roll_for_doubles player dice).escaped = true ∧
    (roll_for_doubles player dice).method = some .forced_pay ∧
    (roll_for_doubles player dice).cost = 50 ∧
    (player.cash < 50 →
      ∃ res st2, handle_roll_for_doubles st player dice card_id = some (res, st2) ∧
        res.movement = none ∧
        (∃ bk, res.bankruptcy = some bk ∧ bk.creditor_id = none ∧
          bk.is_bankrupt = true) ∧
        (st2.players.find? fun q => q.id == player.id) =
          some { player with in_jail := false, jail_turns := 0, is_bankrupt := true, cash := 0 }) ∧
    (50 ≤ player.cash → player.position = 10 → dice = ⟨4, 6⟩ →
      ∃ res st2, handle_roll_for_doubles st player dice card_id = some (res, st2) ∧
        res.success = true ∧
        (st2.players.find? fun q => q.id == player.id) =
          some { player with in_jail := false, jail_turns := 0, cash := player.cash - 50, position := 20 }) := by
  have hdb : dice.is_doubles = false := by
    simp [DiceRoll.is_doubles, hnd]
  have hres : roll_for_doubles player dice =
      ⟨true, some .forced_pay, 50, "Third turn in jail - must pay and leave"⟩ := by
    simp only [roll_for_doubles, hdb, Bool.false_eq_true, if_false, MAX_JAIL_TURNS,
      JAIL_FINE]
    rw [if_pos hturns]
  refine ⟨by rw [hres], by rw [hres], by rw [hres], ?_, ?_⟩
  · intro hcash
    have hfind1 := set_player_find st
      ({ player with in_jail := false, jail_turns := 0 }) hfind
    have hisSome1 : ((set_player st { player with in_jail := false, jail_turns := 0 }).players.find?
        fun q => q.id == player.id).isSome = true := by
      rw [hfind1]; rfl
    obtain ⟨res, st2, hEq, hmov, hbk, hfind2⟩ :=
      handle_bankruptcy_bank_spec
        (set_player st { player with in_jail := false, jail_turns := 0 })
        { player with in_jail := false, jail_turns := 0 } JAIL_FINE (some dice) none
        hisSome1
    refine ⟨res, st2, ?_, hmov, ?_, hfind2⟩
    · have hstep : handle_roll_for_doubles st player dice card_id =
          handle_bankruptcy
            (set_player st { player with in_jail := false, jail_turns := 0 })
            { player with in_jail := false, jail_turns := 0 } JAIL_FINE none
            (some dice) none := by
        simp only [handle_roll_for_doubles, hres]
        rw [if_pos trivial, if_pos ⟨trivial, hcash⟩]
      exact hstep.trans hEq
    · refine ⟨_, hbk, ?_, ?_⟩
      · rfl
      · show (check_bankruptcy { player with in_jail := false, jail_turns := 0, is_bankrupt := true, cash := 0 } JAIL_FINE none).is_bankrupt = true
        rfl
  · intro hcash hpos hdice
    subst hdice
    have hstep : handle_roll_for_doubles st player ⟨4, 6⟩ card_id =
        handle_landing
          (set_player st { player with in_jail := false, jail_turns := 0, cash := player.cash - 50, position := 20 })
          { player with in_jail := false, jail_turns := 0, cash := player.cash - 50, position := 20 }
          ⟨4, 6⟩ ⟨20, false, false, 10⟩ 0 card_id := by
      simp only [handle_roll_for_doubles, hres]
      rw [if_pos trivial]
      rw [if_neg (fun hh : True ∧ player.cash < JAIL_FINE =>
        absurd hh.2 (not_lt.mpr hcash))]
      rw [if_pos trivial]
      norm_num [hpos, DiceRoll.total, move_player, BOARD_SIZE, GO_TO_JAIL_POSITION,
        JAIL_FINE]
    have hfind1 := set_player_find st
      ({ player with in_jail := false, jail_turns := 0, cash := player.cash - 50, position := 20 }) hfind
    refine ⟨{ success := true, message := "Landed on a safe space", dice_roll := some ⟨4, 6⟩, movement := some ⟨20, false, false, 10⟩, next_phase := some .post_roll },
            set_player st { player with in_jail := false, jail_turns := 0, cash := player.cash - 50, position := 20 },
            hstep.trans ?_, rfl, hfind1⟩
    rfl

/-- Witness for `forced_pay_escape`: from the jail cell with
`jail_turns = 2` and a (4,6) roll, $30 of cash leads to bankruptcy with no
movement, while $100 of cash leads to position 20 with $50 left. -/
theorem forced_pay_escape_witness :
    (∃ res st2,
      handle_roll_for_doubles
        { players := [⟨0, 10, 30, true, 2, 0, false⟩], property_states := [],
          turn_phase := .pre_roll }
        ⟨0, 10, 30, true, 2, 0, false⟩ ⟨4, 6⟩ 1 = some (res, st2) ∧
      res.movement = none ∧
      (∃ bk, res.bankruptcy = some bk ∧ bk.creditor_id = none ∧
        bk.is_bankrupt = true) ∧
      (st2.players.find? fun q => q.id == (0 : Nat)) =
        some ⟨0, 10, 0, false, 0, 0, true⟩) ∧
    (∃ res st2,
      handle_roll_for_doubles
        { players := [⟨0, 10, 100, true, 2, 0, false⟩], property_states := [],
          turn_phase := .pre_roll }
        ⟨0, 10, 100, true, 2, 0, false⟩ ⟨4, 6⟩ 1 = some (res, st2) ∧
      res.success = true ∧
      (st2.players.find? fun q => q.id == (0 : Nat)) =
        some ⟨0, 20, 50, false, 0, 0, false⟩) :=
  ⟨(forced_pay_escape
      { players := [⟨0, 10, 30, true, 2, 0, false⟩], property_states := [],
        turn_phase := .pre_roll }
      ⟨0, 10, 30, true, 2, 0, false⟩ ⟨4, 6⟩ 1 (by decide) rfl (by decide)
      (by decide)).2.2.2.1 (by decide),
   (forced_pay_escape
      { players := [⟨0, 10, 100, true, 2, 0, false⟩], property_states := [],
        turn_phase := .pre_roll }
      ⟨0, 10, 100, true, 2, 0, false⟩ ⟨4, 6⟩ 1 (by decide) rfl (by decide)
      (by decide)).2.2.2.2 (by decide) rfl rfl⟩

/-- C1 (code bug): a card-driven move that passes GO credits the $200 salary
twice.  Chance card 3 ("Advance to Illinois Avenue. If you pass Go, collect
$200") drawn at position 36 already adds $200 to the effect's `cash_change`
in the card executor; `_handle_land_on_card` then pays $200 again for the
`passed_go` flag and additionally applies `cash_change`, leaving the player
with $1900 instead of $1700 from $1500. -/
theorem card_pass_go_double_credit :
    ∃ res st2,
      handle_land_on_card
        { players := [⟨0, 36, 1500, false, 0, 0, false⟩], property_states := [],
          turn_phase := .post_roll }
        ⟨0, 36, 1500, false, 0, 0, false⟩ ⟨3, 4⟩ (move_player 29 7) .chance 3 =
        some (res, st2) ∧
      (∃ eff, res.card_effect = some eff ∧ eff.passed_go = true ∧
        eff.cash_change = 200) ∧
      (st2.players.find? fun q => q.id == (0 : Nat)) =
        some ⟨0, 24, 1900, false, 0, 0, false⟩ :=
  ⟨_, _, rfl, ⟨_, rfl, rfl, rfl⟩, rfl⟩

/-- Counterexample to C9 as stated: in `awaiting_buy_decision` on unowned
Boardwalk with $0 of cash, the player is offered only `end_turn` — neither
`buy_property` nor `pass_property` appears, because `can_buy_property`
rejects on insufficient funds and that single check gates both actions. -/
theorem buy_decision_actions_counterexample :
    get_property_id_at_position (39 : Int) = some "boardwalk" ∧
    find_state [⟨"boardwalk", none, 0⟩] "boardwalk" = some ⟨"boardwalk", none, 0⟩ ∧
    get_valid_actions
      { players := [⟨0, 39, 0, false, 0, 0, false⟩],
        property_states := [⟨"boardwalk", none, 0⟩],
        turn_phase := .awaiting_buy_decision } =
      some [{ action_type := .end_turn, description := "Continue (no action available)" }] :=
  ⟨rfl, rfl, rfl⟩

/-- C9 (amended): in phase `awaiting_buy_decision`, `get_valid_actions`
returns `buy_property` plus `pass_property` exactly when the landed space
carries a property that passes `can_buy_property` (exists, unowned, *and*
affordable); otherwise — owned, unaffordable, or no property space — it
returns the single `end_turn` continuation. -/
theorem buy_decision_actions (st : EngineState) (player : Player)
    (hphase : st.turn_phase = .awaiting_buy_decision)
    (hcur : current_player st = some player) :
    (∀ pid, get_property_id_at_position player.position = some pid →
      ((can_buy_property pid player st.property_states).1 = true →
        ∀ price, get_property_price pid = some price →
        get_valid_actions st = some
          [{ action_type := .buy_property, property_id := some pid, cost := some price, description := "Buy the property" },
           { action_type := .pass_property, property_id := some pid, description := "Pass on buying the property" }]) ∧
      ((can_buy_property pid player st.property_states).1 = false →
        get_valid_actions st =
          some [{ action_type := .end_turn, description := "Continue (no action available)" }])) ∧
    (get_property_id_at_position player.position = none →
      get_valid_actions st =
        some [{ action_type := .end_turn, description := "Continue" }]) := by
  constructor
  · intro pid hpid
    constructor
    · intro hcan price hprice
      simp [get_valid_actions, hcur, hphase, hpid, hcan, hprice]
    · intro hcan
      simp [get_valid_actions, hcur, hphase, hpid, hcan]
  · intro hnone
    simp [get_valid_actions, hcur, hphase, hnone]

/-- Witness for `buy_decision_actions`: unowned Boardwalk with $1500 cash
offers buy-for-400 plus pass. -/
theorem buy_decision_actions_witness :
    get_valid_actions
      { players := [⟨0, 39, 1500, false, 0, 0, false⟩],
        property_states := [⟨"boardwalk", none, 0⟩],
        turn_phase := .awaiting_buy_decision } =
      some [{ action_type := .buy_property, property_id := some "boardwalk", cost := some 400, description := "Buy the property" },
            { action_type := .pass_property, property_id := some "boardwalk", description := "Pass on buying the property" }] :=
  ((buy_decision_actions
      { players := [⟨0, 39, 1500, false, 0, 0, false⟩],
        property_states := [⟨"boardwalk", none, 0⟩],
        turn_phase := .awaiting_buy_decision }
      ⟨0, 39, 1500, false, 0, 0, false⟩ rfl rfl).1 "boardwalk" rfl).1
    (by decide) 400 rfl

/-- C10: a `buy_property`, `build_house`, or `build_hotel` action whose
eligibility check fails — or whose property ID is missing — returns
`success = false` and the *same* engine state: no cash deduction and no
owner/houses write happens, because the check runs before any mutation. -/
theorem failed_actions_no_mutation (st : EngineState) (player : Player) :
    (∀ property_id : Option String,
      (property_id = none ∨ ∃ pid, property_id = some pid ∧
        (can_buy_property pid player st.property_states).1 = false) →
      ∃ res, handle_buy_property st player property_id = some (res, st) ∧
        res.success = false) ∧
    (∀ property_id : Option String,
      (property_id = none ∨ ∃ pid, property_id = some pid ∧
        (can_build_house pid player st.property_states).1 = false) →
      ∃ res, handle_build_house st player property_id = some (res, st) ∧
        res.success = false) ∧
    (∀ property_id : Option String,
      (property_id = none ∨ ∃ pid, property_id = some pid ∧
        (can_build_hotel pid player st.property_states).1 = false) →
      ∃ res, handle_build_hotel st player property_id = some (res, st) ∧
        res.success = false) := by
  refine ⟨?_, ?_, ?_⟩
  · rintro _ (rfl | ⟨pid, rfl, hfail⟩)
    · exact ⟨{ success := false, message := "No property specified" }, rfl, rfl⟩
    · refine ⟨{ success := false, message := (can_buy_property pid player st.property_states).2 }, ?_, rfl⟩
      simp [handle_buy_property, hfail]
  · rintro _ (rfl | ⟨pid, rfl, hfail⟩)
    · exact ⟨{ success := false, message := "No property specified" }, rfl, rfl⟩
    · refine ⟨{ success := false, message := (can_build_house pid player st.property_states).2 }, ?_, rfl⟩
      simp [handle_build_house, hfail]
  · rintro _ (rfl | ⟨pid, rfl, hfail⟩)
    · exact ⟨{ success := false, message := "No property specified" }, rfl, rfl⟩
    · refine ⟨{ success := false, message := (can_build_hotel pid player st.property_states).2 }, ?_, rfl⟩
      simp [handle_build_hotel, hfail]

/-- Witness for `failed_actions_no_mutation`: buying already-owned
Boardwalk, building a house with no property given, and building a hotel on
a railroad all fail without touching the state. -/
theorem failed_actions_no_mutation_witness :
    (∃ res, handle_buy_property
      { players := [⟨0, 39, 100, false, 0, 0, false⟩],
        property_states := [⟨"boardwalk", some 1, 0⟩], turn_phase := .post_roll }
      ⟨0, 39, 100, false, 0, 0, false⟩ (some "boardwalk") =
        some (res,
          { players := [⟨0, 39, 100, false, 0, 0, false⟩],
            property_states := [⟨"boardwalk", some 1, 0⟩], turn_phase := .post_roll }) ∧
      res.success = false) ∧
    (∃ res, handle_build_house
      { players := [⟨0, 39, 100, false, 0, 0, false⟩],
        property_states := [⟨"boardwalk", some 1, 0⟩], turn_phase := .post_roll }
      ⟨0, 39, 100, false, 0, 0, false⟩ none =
        some (res,
          { players := [⟨0, 39, 100, false, 0, 0, false⟩],
            property_states := [⟨"boardwalk", some 1, 0⟩], turn_phase := .post_roll }) ∧
      res.success = false) ∧
    (∃ res, handle_build_hotel
      { players := [⟨0, 39, 100, false, 0, 0, false⟩],
        property_states := [⟨"boardwalk", some 1, 0⟩], turn_phase := .post_roll }
      ⟨0, 39, 100, false, 0, 0, false⟩ (some "reading_rr") =
        some (res,
          { players := [⟨0, 39, 100, false, 0, 0, false⟩],
            property_states := [⟨"boardwalk", some 1, 0⟩], turn_phase := .post_roll }) ∧
      res.success = false) :=
  ⟨(failed_actions_no_mutation
      { players := [⟨0, 39, 100, false, 0, 0, false⟩],
        property_states := [⟨"boardwalk", some 1, 0⟩], turn_phase := .post_roll }
      ⟨0, 39, 100, false, 0, 0, false⟩).1 (some "boardwalk")
      (Or.inr ⟨"boardwalk", rfl, by decide⟩),
   (failed_actions_no_mutation
      { players := [⟨0, 39, 100, false, 0, 0, false⟩],
        property_states := [⟨"boardwalk", some 1, 0⟩], turn_phase := .post_roll }
      ⟨0, 39, 100, false, 0, 0, false⟩).2.1 none (Or.inl rfl),
   (failed_actions_no_mutation
      { players := [⟨0, 39, 100, false, 0, 0, false⟩],
        property_states := [⟨"boardwalk", some 1, 0⟩], turn_phase := .post_roll }
      ⟨0, 39, 100, false, 0, 0, false⟩).2.2 (some "reading_rr")
      (Or.inr ⟨"reading_rr", rfl, by decide⟩)⟩

end Monopoly
